import Mathlib

/-!
# SkillSync — shallow embedding of the analytics aggregation and alerting pipeline

This file embeds the ingestion recorder, analytics aggregator and alert
generator of `src/server.js` (SkillSync backend) in Lean 4, and settles the
behavioural claims about them.

Conventions:
* SQLite tables become Lean lists of row structures; every SQL statement the
  code issues is transcribed as a pure function on those lists.
* JavaScript numbers carrying match percentages become `ℚ` (the column is
  REAL); counters become `ℕ`; years become `ℤ`.
* JavaScript `Date` values enter as explicit `(year, month, day)` triples;
  day arithmetic uses the standard civil-calendar day count.
* A fallible database statement is driven by an explicit success flag where a
  claim depends on the failure path.
-/

namespace SkillSync

/-! ## Civil calendar arithmetic

`getWeekNumber` in `server.js` does day-level arithmetic on UTC dates.  We
embed dates as days-since-1970-01-01 (the same epoch JavaScript uses) with
the standard era-based conversion between (year, month, day) triples and day
numbers. -/

/-- A calendar date as JavaScript exposes it: `getFullYear`, `getMonth + 1`,
`getDate`. `month` is 1–12, `day` is 1–31. -/
structure Date where
  year : Int
  month : Nat
  day : Nat
  deriving Repr, DecidableEq

/-- Days since 1970-01-01 of a civil (year, month, day), the value
`Date.UTC(y, m-1, d) / 86400000` has in JavaScript. -/
def daysFromCivil (y : Int) (m d : Nat) : Int :=
  let y' : Int := if m ≤ 2 then y - 1 else y
  -- `/` on ℤ is Euclidean division: for the positive divisors below it is
  -- floor division, so the 400-year era needs no negative-year adjustment.
  let era : Int := y' / 400
  let yoe : Nat := (y' - era * 400).toNat
  let mp : Nat := if 2 < m then m - 3 else m + 9
  let doy : Nat := (153 * mp + 2) / 5 + d - 1
  let doe : Nat := yoe * 365 + yoe / 4 - yoe / 100 + doy
  era * 146097 + (doe : Int) - 719468

/-- Civil (year, month, day) of a days-since-1970-01-01 count. -/
def civilFromDays (z0 : Int) : Date :=
  let z : Int := z0 + 719468
  let era : Int := z / 146097
  let doe : Nat := (z - era * 146097).toNat
  let yoe : Nat := (doe - doe / 1460 + doe / 36524 - doe / 146096) / 365
  let y : Int := (yoe : Int) + era * 400
  let doy : Nat := doe - (365 * yoe + yoe / 4 - yoe / 100)
  let mp : Nat := (5 * doy + 2) / 153
  let d : Nat := doy - (153 * mp + 2) / 5 + 1
  let m : Nat := if mp < 10 then mp + 3 else mp - 9
  { year := if m ≤ 2 then y + 1 else y, month := m, day := d }

/-- Day of the week of a day number, numbered as JavaScript `getUTCDay`:
0 = Sunday … 6 = Saturday.  1970-01-01 was a Thursday (4). -/
def jsWeekday (days : Int) : Nat :=
  ((days + 4) % 7).toNat

/-- `getWeekNumber(date)` from `server.js`:

```js
function getWeekNumber(date) {
  const d = new Date(Date.UTC(date.getFullYear(), date.getMonth(), date.getDate()));
  const dayNum = d.getUTCDay() || 7;
  d.setUTCDate(d.getUTCDate() + 4 - dayNum);
  const yearStart = new Date(Date.UTC(d.getUTCFullYear(), 0, 1));
  return Math.ceil(((d - yearStart) / 86400000 + 1) / 7);
}
```

The date is shifted to the Thursday of its week; the week number is the
ceiling of (day-of-year of that Thursday)/7 within the Thursday's year. -/
def getWeekNumber (dt : Date) : Nat :=
  let dd : Int := daysFromCivil dt.year dt.month dt.day
  let dayNum : Nat := let w := jsWeekday dd; if w = 0 then 7 else w
  let thu : Int := dd + 4 - (dayNum : Int)
  let thuYear : Int := (civilFromDays thu).year
  let yearStart : Int := daysFromCivil thuYear 1 1
  ((thu - yearStart).toNat + 1 + 6) / 7

/-- The ISO week-year of a date: the year of the Thursday of the date's week.
This is the year `getWeekNumber` numbers its weeks within (the
`d.getUTCFullYear()` the source computes after the Thursday shift), and the
year the spec says trend rows must be keyed by. -/
def isoWeekYear (dt : Date) : Int :=
  let dd : Int := daysFromCivil dt.year dt.month dt.day
  let dayNum : Nat := let w := jsWeekday dd; if w = 0 then 7 else w
  (civilFromDays (dd + 4 - (dayNum : Int))).year

/-! ## Data model

Rows of the three tables the pipeline touches (`skill_gaps`,
`skill_analytics`, `trends`), and the store holding them.  Column types
follow the schema in `server.js`: `match_percentage` is REAL (`ℚ`),
counters are integers, text columns are strings.  `skill_priority` is
stored as a JSON blob and parsed defensively on read; we embed the stored
blob as `Option SkillPriority`, `none` standing for a blob `JSON.parse`
rejects (the read side skips it). -/

/-- The `skillPriority` object of an analysis result: three arrays of skill
names.  A tier the AI omitted is the empty list (the reader guards each tier
with `if (priority.critical)` etc., and skipping equals folding over `[]`). -/
structure SkillPriority where
  critical : List String
  important : List String
  optional : List String
  deriving Repr, DecidableEq

/-- One row of `skill_gaps`: one immutable analysis submission. -/
structure Record where
  id : Nat
  user_id : Option Nat
  student_id : String
  student_name : String
  department : String
  academic_year : String
  job_role : String
  company_name : String
  match_percentage : ℚ
  missing_skills : List String
  matched_skills : List String
  skill_priority : Option SkillPriority
  recommendations : List String
  timestamp : Nat
  deriving Repr, DecidableEq

/-- One row of `skill_analytics`, keyed by (skill_name, department). -/
structure SkillRow where
  skill_name : String
  department : String
  total_missing : Nat
  last_seen : Nat
  deriving Repr, DecidableEq

/-- One row of `trends`, keyed by (skill_name, week_number, year). -/
structure TrendRow where
  skill_name : String
  week_number : Nat
  year : Int
  count : Nat
  deriving Repr, DecidableEq

/-- The SQLite store: the three tables the analytics pipeline touches. -/
structure Store where
  skill_gaps : List Record
  skill_analytics : List SkillRow
  trends : List TrendRow
  deriving Repr, DecidableEq

def emptyStore : Store := ⟨[], [], []⟩

/-! ## Ingestion recorder -/

/-- JavaScript `x || "dflt"` on a string: the empty string is falsy. -/
def orElse (s dflt : String) : String :=
  if s = "" then dflt else s

/-- The data object `storeToDatabase` receives (built in the
`/api/analyze` handler). -/
structure StoreData where
  user_id : Option Nat
  student_id : String
  student_name : String
  department : String
  academic_year : String
  job_role : String
  company_name : String
  match_percentage : ℚ
  missing_skills : List String
  matched_skills : List String
  skill_priority : SkillPriority
  recommendations : List String
  deriving Repr, DecidableEq

/-- The INSERT INTO `skill_gaps` of `storeToDatabase`: appends one row, id
assigned by AUTOINCREMENT, timestamp by CURRENT_TIMESTAMP (threaded in as
`now`). -/
def insertRecord (data : StoreData) (now : Nat) (st : Store) : Store :=
  { st with skill_gaps := st.skill_gaps ++
      [{ id := st.skill_gaps.length + 1
         user_id := data.user_id
         student_id := data.student_id
         student_name := orElse data.student_name "Anonymous"
         department := orElse data.department "Unknown"
         academic_year := orElse data.academic_year "Not Specified"
         job_role := data.job_role
         company_name := orElse data.company_name "Unknown"
         match_percentage := data.match_percentage
         missing_skills := data.missing_skills
         matched_skills := data.matched_skills
         skill_priority := some data.skill_priority
         recommendations := data.recommendations
         timestamp := now }] }

/-- One SELECT-then-UPDATE-or-INSERT of `updateSkillAnalytics` for a single
skill: the first `skill_analytics` row matching (skill, dept) gets
`total_missing + 1` and a refreshed `last_seen`; if none exists a row with
`total_missing = 1` is appended. -/
def upsertSkillRow (skill dept : String) (now : Nat) :
    List SkillRow → List SkillRow
  | [] => [{ skill_name := skill, department := dept, total_missing := 1,
             last_seen := now }]
  | r :: rs =>
      if r.skill_name = skill ∧ r.department = dept then
        { r with total_missing := r.total_missing + 1, last_seen := now } :: rs
      else
        r :: upsertSkillRow skill dept now rs

/-- `updateSkillAnalytics(skills, department)`: one upsert per element of
`skills`, in array order, against department `department || "Unknown"`.
Per-skill database errors are caught and logged in the source; nothing in
the claims drives that path, so each upsert is taken as succeeding. -/
def updateSkillAnalytics (skills : List String) (department : String)
    (now : Nat) (st : Store) : Store :=
  let tbl := skills.foldl
    (fun tbl skill => upsertSkillRow skill (orElse department "Unknown") now tbl)
    st.skill_analytics
  { st with skill_analytics := tbl }

/-- One upsert of `updateTrends` for a single skill: the first `trends` row
matching (skill, week, year) gets `count + 1`; else a row with `count = 1`
is appended. -/
def upsertTrendRow (skill : String) (week : Nat) (year : Int) :
    List TrendRow → List TrendRow
  | [] => [{ skill_name := skill, week_number := week, year := year, count := 1 }]
  | r :: rs =>
      if r.skill_name = skill ∧ r.week_number = week ∧ r.year = year then
        { r with count := r.count + 1 } :: rs
      else
        r :: upsertTrendRow skill week year rs

/-- `updateTrends(skills)`: computes `weekNumber = getWeekNumber(now)` but
`year = now.getFullYear()` — the **calendar** year of the submission date,
not the ISO week-year — and upserts (skill, weekNumber, year) per element
of `skills`. -/
def updateTrends (skills : List String) (today : Date) (st : Store) : Store :=
  let weekNumber := getWeekNumber today
  let year := today.year
  let tbl := skills.foldl
    (fun tbl skill => upsertTrendRow skill weekNumber year tbl) st.trends
  { st with trends := tbl }

/-- `storeToDatabase(data)`.  The whole body is wrapped in try/catch: when
the primary INSERT throws (`insertOk = false`) control jumps to the catch,
which only logs — the two counter updates are skipped and the store is left
unchanged, and **no error propagates to the caller**.  On success the
counter updates run after the insert. -/
def storeToDatabase (insertOk : Bool) (data : StoreData) (today : Date)
    (now : Nat) (st : Store) : Store :=
  if insertOk then
    let st1 := insertRecord data now st
    let st2 := updateSkillAnalytics data.missing_skills data.department now st1
    updateTrends data.missing_skills today st2
  else
    st

/-- The spec's `record(submission)` operation is `storeToDatabase` on the
successful-insert path. -/
def record (data : StoreData) (today : Date) (now : Nat) (st : Store) : Store :=
  storeToDatabase true data today now st

/-- `total_missing` of the first `skill_analytics` row keyed
(skill, dept) in a table, 0 when absent (the read the upsert's SELECT
performs). -/
def rowValue (tbl : List SkillRow) (skill dept : String) : Nat :=
  match tbl.find? (fun r => r.skill_name = skill ∧ r.department = dept) with
  | some r => r.total_missing
  | none => 0

/-- Value of the SkillCounter keyed (skill, department) in the store. -/
def counterValue (st : Store) (skill dept : String) : Nat :=
  rowValue st.skill_analytics skill dept

/-! ## `/api/analyze` handler -/

/-- The analysis result the external AI call returns (inbound interface). -/
structure Analysis where
  matchPercentage : ℚ
  missingSkills : List String
  matchedSkills : List String
  skillPriority : SkillPriority
  recommendations : List String
  deriving Repr, DecidableEq

/-- The request body of `POST /api/analyze`; an absent field is the empty
string (both are falsy in the source's `||` defaults). -/
structure AnalyzeRequest where
  resumeText : String
  jobDescription : String
  studentName : String
  department : String
  academicYear : String
  companyName : String
  deriving Repr, DecidableEq

/-- Outcome of `POST /api/analyze` as the caller sees it. -/
inductive ApiResult where
  | ok200 (analysis : Analysis)
  | err400 (msg : String)
  | err500 (msg : String)
  deriving Repr, DecidableEq

/-- `true` exactly on the non-2xx constructors. -/
def ApiResult.isError : ApiResult → Bool
  | .ok200 _ => false
  | .err400 _ => true
  | .err500 _ => true

/-- JavaScript `s.includes(sub)` for nonempty `sub`: `splitOn` yields at
least two pieces iff `sub` occurs in `s`. -/
def jsIncludes (s sub : String) : Bool :=
  2 ≤ (s.splitOn sub).length

/-- JavaScript `line.split(":")[1]?.trim() || "Unknown"`. -/
def afterColon (line : String) : String :=
  match (line.splitOn ":").drop 1 with
  | [] => "Unknown"
  | x :: _ => orElse x.trim "Unknown"

/-- `extractCompanyName(jobDescription)` from `server.js`: first line
containing `company:`/`organization:`/`employer:` (case-insensitively)
yields its post-colon text, else `"Unknown"`. -/
def extractCompanyName (jobDescription : String) : String :=
  let lines := jobDescription.splitOn "\n"
  match lines.find? (fun line =>
      jsIncludes line.toLower "company:" ||
      jsIncludes line.toLower "organization:" ||
      jsIncludes line.toLower "employer:") with
  | some line => afterColon line
  | none => "Unknown"

/-- `generateStudentId(name)`: `STU_<NAME>_<Date.now()>` with whitespace
replaced by underscores, or `STU_ANON_<Date.now()>`.  The `\s+` run
collapsing is modelled as single-space replacement; the claims depend only
on which branch is taken, never on the exact id text. -/
def generateStudentId (name : String) (nowMs : Nat) : String :=
  if name = "" then "STU_ANON_" ++ toString nowMs
  else "STU_" ++ (name.replace " " "_").toUpper ++ "_" ++ toString nowMs

/-- The `POST /api/analyze` handler.  Control flow of the source:
missing `resumeText`/`jobDescription` → 400 before any write; a failed AI
call (`geminiResult = .error`) → 500, nothing stored; otherwise
`storeToDatabase` runs (swallowing its own errors) and `res.json(analysis)`
is sent **unconditionally** — a failed primary insert still answers 200.
`jobRole` is `extractJobRole(jobDescription)`, free-text job-title
extraction glue outside this pipeline (spec §1/§6 treats the job role as
inbound submitter metadata), so it enters here as an input. -/
def analyzeHandler (req : AnalyzeRequest) (geminiResult : Except String Analysis)
    (jobRole : String) (insertOk : Bool) (today : Date) (now : Nat)
    (st : Store) : ApiResult × Store :=
  if req.resumeText = "" ∨ req.jobDescription = "" then
    (.err400 "Resume text and job description are required", st)
  else
    match geminiResult with
    | .error msg => (.err500 msg, st)
    | .ok analysis =>
        let data : StoreData :=
          { user_id := none
            student_id := generateStudentId req.studentName now
            student_name := orElse req.studentName "Anonymous"
            department := orElse req.department "Unknown"
            academic_year := orElse req.academicYear "Not Specified"
            job_role := jobRole
            company_name := orElse req.companyName (extractCompanyName req.jobDescription)
            match_percentage := analysis.matchPercentage
            missing_skills := analysis.missingSkills
            matched_skills := analysis.matchedSkills
            skill_priority := analysis.skillPriority
            recommendations := analysis.recommendations }
        (.ok200 analysis, storeToDatabase insertOk data today now st)

/-! ## Analytics aggregator (`GET /api/analytics`)

Every query the endpoint issues is a SELECT; the embedding is a pure
function of the store.  SQLite leaves GROUP BY output order and ORDER BY
tie order unspecified; the embedding fixes them deterministically
(first-occurrence grouping, insertion sort on the ordering key). -/

/-- The `department`/`academicYear` query parameters; `none` models an
absent or empty parameter (`if (department)` is a falsiness test). -/
structure Filter where
  department : Option String
  academicYear : Option String
  deriving Repr, DecidableEq

def noFilter : Filter := ⟨none, none⟩

/-- The WHERE clause the endpoint builds: `1=1` plus one equality per
present parameter. -/
def matchesFilter (f : Filter) (r : Record) : Bool :=
  (match f.department with
   | none => true
   | some d => r.department = d) &&
  (match f.academicYear with
   | none => true
   | some y => r.academic_year = y)

/-- First-occurrence deduplication (`COUNT(DISTINCT …)` keys, `GROUP BY`
keys, JS `Set` insertion order). -/
def dedupKeys (l : List String) : List String :=
  l.foldl (fun acc s => if s ∈ acc then acc else acc ++ [s]) []

/-- JavaScript `Math.round`: round half toward positive infinity. -/
def jsRound (q : ℚ) : Int := (q + 1/2).floor

/-- `Math.round(AVG(match_percentage) || 0)`: SQL AVG of an empty set is
NULL, defaulted to 0. -/
def avgRounded (scores : List ℚ) : Int :=
  if scores.length = 0 then 0 else jsRound (scores.sum / (scores.length : ℚ))

/-- Insertion step of a descending sort on a `Nat` key. -/
def insertDescBy (key : α → Nat) (x : α) : List α → List α
  | [] => [x]
  | y :: ys => if key y < key x then x :: y :: ys else y :: insertDescBy key x ys

/-- Descending sort on a `Nat` key (`ORDER BY key DESC`). -/
def sortDescBy (key : α → Nat) (l : List α) : List α :=
  l.foldr (insertDescBy key) []

/-- One group row of the three record-level GROUP BY queries, after the
response map applies `Math.round(avgMatch || 0)`. -/
structure GroupStat where
  key : String
  count : Nat
  avgMatch : Int
  deriving Repr, DecidableEq

/-- `SELECT k, COUNT(*), AVG(match_percentage) FROM skill_gaps GROUP BY k`
with the response-side rounding applied per group. -/
def groupStats (k : Record → String) (recs : List Record) : List GroupStat :=
  (dedupKeys (recs.map k)).map (fun key =>
    let grp := recs.filter (fun r => k r = key)
    { key := key, count := grp.length,
      avgMatch := avgRounded (grp.map (·.match_percentage)) })

/-- One aggregated row of the `skill_analytics` GROUP BY: `SELECT
skill_name, SUM(total_missing) as count … GROUP BY skill_name ORDER BY
count DESC LIMIT 15`.  (The query also selects an arbitrary per-group
`department`, which nothing reads; it is dropped.) -/
structure TopSkillRow where
  skill_name : String
  count : Nat
  deriving Repr, DecidableEq

def topSkillsFromAnalytics (tbl : List SkillRow) : List TopSkillRow :=
  let keys := dedupKeys (tbl.map (·.skill_name))
  let groups := keys.map (fun s =>
    { skill_name := s,
      count := ((tbl.filter (fun r => r.skill_name = s)).map (·.total_missing)).sum
      : TopSkillRow })
  (sortDescBy (fun g => g.count) groups).take 15

/-- One aggregated row of the trending query: `SELECT skill_name,
SUM(count) as total … WHERE year = ? AND week_number >= ? GROUP BY
skill_name ORDER BY total DESC LIMIT 10`.  (The selected `weekly_data`
GROUP_CONCAT column is never read and is dropped.) -/
structure TrendingRow where
  skill_name : String
  total : Nat
  deriving Repr, DecidableEq

def trendingQuery (tbl : List TrendRow) (currentYear : Int) (minWeek : Nat) :
    List TrendingRow :=
  let rows := tbl.filter (fun r => r.year = currentYear ∧ minWeek ≤ r.week_number)
  let keys := dedupKeys (rows.map (·.skill_name))
  let groups := keys.map (fun s =>
    { skill_name := s,
      total := ((rows.filter (fun r => r.skill_name = s)).map (·.count)).sum
      : TrendingRow })
  (sortDescBy (fun g => g.total) groups).take 10

/-- The four match-score bands, exactly as the endpoint filters them. -/
def inHigh (q : ℚ) : Bool := decide (80 ≤ q)
def inMedium (q : ℚ) : Bool := decide (60 ≤ q ∧ q < 80)
def inLow (q : ℚ) : Bool := decide (40 ≤ q ∧ q < 60)
def inVeryLow (q : ℚ) : Bool := decide (q < 40)

structure Distribution where
  high : Nat
  medium : Nat
  low : Nat
  veryLow : Nat
  deriving Repr, DecidableEq

/-- The `distribution` object: four filters over the filtered score list. -/
def distributionOf (scores : List ℚ) : Distribution :=
  { high := (scores.filter inHigh).length
    medium := (scores.filter inMedium).length
    low := (scores.filter inLow).length
    veryLow := (scores.filter inVeryLow).length }

structure PriorityBreakdown where
  critical : List String
  important : List String
  optional : List String
  deriving Repr, DecidableEq

/-- JS `Set.add` over a list: append each element not yet present. -/
def addAllNew (acc : List String) (xs : List String) : List String :=
  xs.foldl (fun a s => if s ∈ a then a else a ++ [s]) acc

/-- The `skillPriorityBreakdown` accumulation: per filtered record, parse
the stored priority blob (a record whose blob `JSON.parse` rejects is
skipped by the empty catch) and add each tier's skills to the
corresponding `Set`. -/
def priorityBreakdownOf (recs : List Record) : PriorityBreakdown :=
  recs.foldl
    (fun acc r =>
      match r.skill_priority with
      | none => acc
      | some p =>
          { critical := addAllNew acc.critical p.critical
            important := addAllNew acc.important p.important
            optional := addAllNew acc.optional p.optional })
    ⟨[], [], []⟩

/-! ## Alert generator -/

structure Alert where
  severity : String
  icon : String
  title : String
  description : String
  count : Option Nat
  action : Option String
  deriving Repr, DecidableEq

/-- Rule 1 alert.  The source interpolates `top.skill`, but the SQL row it
receives carries the property `skill_name`, not `skill`; the JS property
read yields `undefined` and the template renders the string `"undefined"`
in the title. -/
def criticalSkillAlert (top : TopSkillRow) : Alert :=
  { severity := "critical", icon := "🚨"
    title := "High Demand: undefined"
    description := toString top.count ++ " students missing this critical skill. Consider emergency workshop."
    count := some top.count
    action := some "Schedule Workshop" }

/-- Rule 2 alert.  As in rule 1, `topTrend.skill` reads a property the
trending row does not have (`skill_name` is the one present), so the title
renders `"undefined"`; `topTrend.total` is present and is used. -/
def trendingSkillAlert (topTrend : TrendingRow) : Alert :=
  { severity := "warning", icon := "📈"
    title := "Trending Skill Gap: undefined"
    description := "Emerging demand detected. " ++ toString topTrend.total ++ " instances in past 4 weeks."
    count := some topTrend.total
    action := some "Add to Curriculum" }

/-- `((distribution.low + distribution.veryLow) / totalStudents) * 100` as
the source computes it.  When `totalStudents = 0` the distribution fields
are all 0 and JavaScript evaluates `0/0 = NaN`, every comparison against
which is false; `ℚ` division by zero yields 0, whose comparisons against
positive thresholds agree. -/
def lowMatchPercentage (d : Distribution) : ℚ :=
  (((d.low : ℚ) + (d.veryLow : ℚ)) / ((d.high + d.medium + d.low + d.veryLow : Nat) : ℚ)) * 100

/-- Rule 3 alert, with `Math.round(lowMatchPercentage)` in the description
and no `count` property. -/
def readinessAlert (d : Distribution) : Alert :=
  { severity := "warning", icon := "⚠️"
    title := "Overall Readiness Concern"
    description := toString (jsRound (lowMatchPercentage d)) ++ "% of students have match scores below 60%. Review curriculum alignment."
    count := none
    action := some "Review Curriculum" }

/-- Alerts pushed by rule 1 (critical skill gap). -/
def rule1Alerts (topSkills : List TopSkillRow) : List Alert :=
  match topSkills with
  | [] => []
  | top :: _ => if 5 < top.count then [criticalSkillAlert top] else []

/-- Alerts pushed by rule 2 (trending skill). -/
def rule2Alerts (trending : List TrendingRow) : List Alert :=
  match trending with
  | [] => []
  | topTrend :: _ => [trendingSkillAlert topTrend]

/-- Alerts pushed by rule 3 (overall readiness concern). -/
def rule3Alerts (d : Distribution) : List Alert :=
  if 40 < lowMatchPercentage d then [readinessAlert d] else []

/-- `generateEnhancedAlerts(topSkills, trending, distribution)`: the three
rules evaluated independently, alerts pushed in rule order. -/
def generateEnhancedAlerts (topSkills : List TopSkillRow)
    (trending : List TrendingRow) (distribution : Distribution) : List Alert :=
  rule1Alerts topSkills ++ rule2Alerts trending ++ rule3Alerts distribution

/-! ## Snapshot assembly -/

structure Stats where
  totalStudents : Nat
  uniqueSkills : Nat
  averageMatch : Int
  totalDepartments : Nat
  totalAcademicYears : Nat
  totalCompanies : Nat
  deriving Repr, DecidableEq

structure TopSkillEntry where
  skill : String
  count : Nat
  deriving Repr, DecidableEq

structure DeptStat where
  department : String
  count : Nat
  avgMatch : Int
  deriving Repr, DecidableEq

structure YearStat where
  year : String
  count : Nat
  avgMatch : Int
  deriving Repr, DecidableEq

structure CompanyStat where
  company : String
  studentCount : Nat
  avgReadiness : Int
  deriving Repr, DecidableEq

structure TrendingSkillEntry where
  skill : String
  total : Nat
  trend : String
  deriving Repr, DecidableEq

structure ActivityItem where
  id : Nat
  studentName : String
  timestamp : Nat
  department : String
  academicYear : String
  jobRole : String
  companyName : String
  matchScore : Int
  topSkills : List String
  deriving Repr, DecidableEq

structure Snapshot where
  stats : Stats
  topMissingSkills : List TopSkillEntry
  skillPriorityBreakdown : PriorityBreakdown
  departmentStats : List DeptStat
  academicYearStats : List YearStat
  companyStats : List CompanyStat
  trendingSkills : List TrendingSkillEntry
  recentActivity : List ActivityItem
  alerts : List Alert
  matchDistribution : Distribution
  deriving Repr, DecidableEq

/-- The `recentActivity` response map of one record (`missing_skills` is a
stringified list, so the defensive re-parse returns the list itself). -/
def toActivityItem (r : Record) : ActivityItem :=
  { id := r.id
    studentName := orElse r.student_name "Anonymous"
    timestamp := r.timestamp
    department := r.department
    academicYear := r.academic_year
    jobRole := r.job_role
    companyName := r.company_name
    matchScore := jsRound r.match_percentage
    topSkills := r.missing_skills.take 3 }

/-- The success path of `GET /api/analytics`: every query and the response
assembly, as a pure function of (filter, current date, store).  The
filtered record list drives the top-level stats, the distribution, the
priority breakdown and recent activity; the three record-level GROUP BY
queries run over **all** records (their SQL has no WHERE clause). -/
def aggregate (f : Filter) (today : Date) (st : Store) : Snapshot :=
  let flt := st.skill_gaps.filter (matchesFilter f)
  let totalStudents := (dedupKeys (flt.map (·.student_id))).length
  let averageMatch := avgRounded (flt.map (·.match_percentage))
  let dStats := groupStats (·.department) st.skill_gaps
  let yStats := groupStats (·.academic_year) st.skill_gaps
  let cStatsAll := groupStats (·.company_name) st.skill_gaps
  let cStats := (sortDescBy (fun g => g.count) cStatsAll).take 10
  let recent := ((sortDescBy (fun r => r.timestamp) flt).take 20).map toActivityItem
  let top := topSkillsFromAnalytics st.skill_analytics
  let currentWeek := getWeekNumber today
  let trending := trendingQuery st.trends today.year (max 1 (currentWeek - 3))
  let dist := distributionOf (flt.map (·.match_percentage))
  { stats :=
      { totalStudents := totalStudents
        uniqueSkills := top.length
        averageMatch := averageMatch
        totalDepartments := dStats.length
        totalAcademicYears := (yStats.filter (fun y => y.key ≠ "Not Specified")).length
        totalCompanies := (cStats.filter (fun c => c.key ≠ "Unknown")).length }
    topMissingSkills := top.map (fun s => { skill := s.skill_name, count := s.count })
    skillPriorityBreakdown := priorityBreakdownOf flt
    departmentStats := dStats.map (fun g => { department := g.key, count := g.count, avgMatch := g.avgMatch })
    academicYearStats := yStats.map (fun g => { year := g.key, count := g.count, avgMatch := g.avgMatch })
    companyStats := cStats.map (fun g => { company := g.key, studentCount := g.count, avgReadiness := g.avgMatch })
    trendingSkills := trending.map (fun t => { skill := t.skill_name, total := t.total, trend := "increasing" })
    recentActivity := recent
    alerts := generateEnhancedAlerts top trending dist
    matchDistribution := dist }

/-! ## Degraded path and response shape -/

/-- The `stats` object of `getMockAnalytics()`. -/
structure MockStats where
  totalStudents : Nat
  uniqueSkills : Nat
  averageMatch : Nat
  totalDepartments : Nat
  deriving Repr, DecidableEq

/-- The shape `getMockAnalytics()` actually returns: it carries `trends`
instead of `trendingSkills` and has no `academicYearStats`,
`companyStats` or `skillPriorityBreakdown` at all. -/
structure MockAnalytics where
  stats : MockStats
  alerts : List Alert
  topMissingSkills : List TopSkillEntry
  departmentStats : List DeptStat
  matchDistribution : Distribution
  trends : List TrendingSkillEntry
  recentActivity : List ActivityItem
  deriving Repr, DecidableEq

/-- `getMockAnalytics()` from `server.js`. -/
def getMockAnalytics : MockAnalytics :=
  { stats := { totalStudents := 0, uniqueSkills := 0, averageMatch := 0, totalDepartments := 0 }
    alerts := []
    topMissingSkills := []
    departmentStats := []
    matchDistribution := { high := 0, medium := 0, low := 0, veryLow := 0 }
    trends := []
    recentActivity := [] }

/-- The JSON keys of the success response of `GET /api/analytics`. -/
def snapshotResponseKeys : List String :=
  ["stats", "topMissingSkills", "skillPriorityBreakdown", "departmentStats",
   "academicYearStats", "companyStats", "trendingSkills", "recentActivity",
   "alerts", "matchDistribution"]

/-- The JSON keys of the object `getMockAnalytics()` returns. -/
def mockAnalyticsKeys : List String :=
  ["stats", "alerts", "topMissingSkills", "departmentStats",
   "matchDistribution", "trends", "recentActivity"]

/-- Modelled from the spec (§6, outbound interface): the documented field
names of the analytics snapshot. -/
def documentedSnapshotKeys : List String :=
  ["stats", "topMissingSkills", "departmentStats", "academicYearStats",
   "companyStats", "trendingSkills", "matchDistribution",
   "skillPriorityBreakdown", "recentActivity", "alerts"]

/-- What the caller of `GET /api/analytics` receives: both the success
snapshot and the degraded mock are sent with `res.json` (HTTP 200); no
constructor carries an error. -/
inductive AnalyticsResponse where
  | ok (s : Snapshot)
  | degraded (m : MockAnalytics)
  deriving Repr, DecidableEq

/-- The `GET /api/analytics` handler: the whole body is one try/catch whose
catch answers `res.json(getMockAnalytics())`.  `internalOk = false` drives
the catch.  The body only SELECTs, so the store passes through unchanged on
both paths. -/
def analyticsHandler (internalOk : Bool) (f : Filter) (today : Date)
    (st : Store) : AnalyticsResponse × Store :=
  if internalOk then (.ok (aggregate f today st), st)
  else (.degraded getMockAnalytics, st)

/-! ## Concrete fixtures for counterexamples and witnesses -/

def sampleDate : Date := ⟨2025, 10, 11⟩

def sampleAnalysis : Analysis :=
  { matchPercentage := 72
    missingSkills := ["React", "SQL"]
    matchedSkills := ["Java"]
    skillPriority := ⟨["React"], ["SQL"], []⟩
    recommendations := ["Learn React"] }

def sampleRequest : AnalyzeRequest :=
  { resumeText := "some resume text"
    jobDescription := "Job Title: Engineer"
    studentName := "Alice"
    department := "CSE"
    academicYear := "3rd Year"
    companyName := "Acme" }

def sampleData : StoreData :=
  { user_id := none
    student_id := "STU_A_1"
    student_name := "Alice"
    department := "CSE"
    academic_year := "3rd Year"
    job_role := "Engineer"
    company_name := "Acme"
    match_percentage := 72
    missing_skills := ["React", "SQL"]
    matched_skills := []
    skill_priority := ⟨[], [], []⟩
    recommendations := [] }

/-- A valid submission whose `missingSkills` lists the same skill twice. -/
def dupSkillData : StoreData := { sampleData with missing_skills := ["React", "React"] }

/-- A store holding one trend row inside the current 4-week window of
`sampleDate` (week 41 of 2025). -/
def trendFixtureStore : Store :=
  { skill_gaps := [], skill_analytics := []
    trends := [{ skill_name := "React", week_number := 41, year := 2025, count := 3 }] }

/-- A department-only filter. -/
def deptFilter : Filter := ⟨some "CSE", none⟩

/-! ## Helper lemmas on the skill-counter upsert -/

theorem rowValue_upsert_self (skill dept : String) (now : Nat)
    (tbl : List SkillRow) :
    rowValue (upsertSkillRow skill dept now tbl) skill dept =
      rowValue tbl skill dept + 1 := by
  induction tbl with
  | nil => simp [upsertSkillRow, rowValue, List.find?]
  | cons r rs ih =>
      by_cases h : r.skill_name = skill ∧ r.department = dept
      · simp [upsertSkillRow, rowValue, List.find?, h]
      · simp only [upsertSkillRow, if_neg h]
        simp only [rowValue, List.find?] at ih ⊢
        rw [show (decide (r.skill_name = skill ∧ r.department = dept)) = false by
          simpa using h]
        exact ih

theorem rowValue_upsert_other (skill dept s d : String) (now : Nat)
    (tbl : List SkillRow) (h : ¬ (s = skill ∧ d = dept)) :
    rowValue (upsertSkillRow skill dept now tbl) s d = rowValue tbl s d := by
  have hkey : ¬ (skill = s ∧ dept = d) := fun hc => h ⟨hc.1.symm, hc.2.symm⟩
  induction tbl with
  | nil =>
      simp only [upsertSkillRow, rowValue, List.find?]
      rw [show (decide (skill = s ∧ dept = d)) = false by simpa using hkey]
  | cons r rs ih =>
      by_cases hr : r.skill_name = skill ∧ r.department = dept
      · have hrs : ¬ (r.skill_name = s ∧ r.department = d) := by
          rintro ⟨h1, h2⟩
          exact hkey ⟨hr.1 ▸ h1, hr.2 ▸ h2⟩
        simp only [upsertSkillRow, if_pos hr, rowValue, List.find?]
        rw [show (decide (r.skill_name = s ∧ r.department = d)) = false by
          simpa using hrs]
      · simp only [upsertSkillRow, if_neg hr, rowValue, List.find?] at ih ⊢
        by_cases hm : r.skill_name = s ∧ r.department = d
        · rw [show (decide (r.skill_name = s ∧ r.department = d)) = true by
            simpa using hm]
        · rw [show (decide (r.skill_name = s ∧ r.department = d)) = false by
            simpa using hm]
          exact ih

theorem rowValue_fold_not_mem (skills : List String) (dept : String)
    (now : Nat) (s : String) :
    ∀ tbl : List SkillRow, s ∉ skills →
      rowValue (skills.foldl (fun t sk => upsertSkillRow sk dept now t) tbl) s dept =
        rowValue tbl s dept := by
  induction skills with
  | nil => intro tbl _; rfl
  | cons a l ih =>
      intro tbl h
      have ha : s ≠ a := fun hc => h (hc ▸ List.mem_cons_self a l)
      rw [List.foldl_cons, ih _ (fun hm => h (List.mem_cons_of_mem a hm))]
      exact rowValue_upsert_other a dept s dept now tbl (fun hc => ha hc.1)

theorem rowValue_fold_mem (skills : List String) (dept : String)
    (now : Nat) (s : String) :
    ∀ tbl : List SkillRow, s ∈ skills → skills.Nodup →
      rowValue (skills.foldl (fun t sk => upsertSkillRow sk dept now t) tbl) s dept =
        rowValue tbl s dept + 1 := by
  induction skills with
  | nil => intro tbl hmem _; cases hmem
  | cons a l ih =>
      intro tbl hmem hnd
      rw [List.foldl_cons]
      rcases List.mem_cons.1 hmem with rfl | hmem'
      · rw [rowValue_fold_not_mem l dept now s _ (List.nodup_cons.1 hnd).1]
        exact rowValue_upsert_self s dept now tbl
      · have ha : s ≠ a := by
          rintro rfl
          exact (List.nodup_cons.1 hnd).1 hmem'
        rw [ih _ hmem' (List.nodup_cons.1 hnd).2]
        rw [rowValue_upsert_other a dept s dept now tbl (fun hc => ha hc.1)]

/-! ## Helper lemmas on the distribution bands -/

theorem band_partition (q : ℚ) :
    (inHigh q = true ∧ inMedium q = false ∧ inLow q = false ∧ inVeryLow q = false) ∨
    (inHigh q = false ∧ inMedium q = true ∧ inLow q = false ∧ inVeryLow q = false) ∨
    (inHigh q = false ∧ inMedium q = false ∧ inLow q = true ∧ inVeryLow q = false) ∨
    (inHigh q = false ∧ inMedium q = false ∧ inLow q = false ∧ inVeryLow q = true) := by
  simp only [inHigh, inMedium, inLow, inVeryLow, decide_eq_true_eq,
    decide_eq_false_iff_not, not_and, not_lt, not_le]
  rcases le_or_lt 80 q with h80 | h80
  · exact Or.inl ⟨h80, fun _ => h80, fun _ => by linarith, by linarith⟩
  · rcases le_or_lt 60 q with h60 | h60
    · exact Or.inr (Or.inl ⟨h80, ⟨h60, h80⟩, fun _ => h60, by linarith⟩)
    · rcases le_or_lt 40 q with h40 | h40
      · exact Or.inr (Or.inr (Or.inl ⟨by linarith, fun h => by linarith,
          ⟨h40, h60⟩, h40⟩))
      · exact Or.inr (Or.inr (Or.inr ⟨by linarith, fun h => by linarith,
          fun h => by linarith, h40⟩))

theorem bands_length_sum (l : List ℚ) :
    (l.filter inHigh).length + (l.filter inMedium).length +
      (l.filter inLow).length + (l.filter inVeryLow).length = l.length := by
  induction l with
  | nil => rfl
  | cons q t ih =>
      rcases band_partition q with ⟨h1, h2, h3, h4⟩ | ⟨h1, h2, h3, h4⟩ |
        ⟨h1, h2, h3, h4⟩ | ⟨h1, h2, h3, h4⟩ <;>
        simp [List.filter_cons, h1, h2, h3, h4] <;> omega

/-! ## Claim theorems -/

/-- C1: the claim says a submission whose date falls in ISO week 1 of the
following year is keyed with that following ISO year.  The code computes
the ISO week number correctly (2025-12-31 lies in week 1, whose Thursday
is in 2026) but keys the trend row with `now.getFullYear()`, the trailing
calendar year 2025. -/
theorem trendCounter_keyed_by_calendar_year :
    getWeekNumber ⟨2025, 12, 31⟩ = 1 ∧
    isoWeekYear ⟨2025, 12, 31⟩ = 2026 ∧
    (updateTrends ["React"] ⟨2025, 12, 31⟩ emptyStore).trends =
      [{ skill_name := "React", week_number := 1, year := 2025, count := 1 }] ∧
    (2025 : Int) ≠ 2026 := by
  decide

/-- C2 (counterexample): when the primary insert fails
(`insertOk = false`), the caller still receives the 200 success response
carrying the analysis — not a failure. -/
theorem insert_failure_still_returns_success :
    (analyzeHandler sampleRequest (.ok sampleAnalysis) "Engineer" false
        sampleDate 99 emptyStore).1 = .ok200 sampleAnalysis ∧
    (analyzeHandler sampleRequest (.ok sampleAnalysis) "Engineer" false
        sampleDate 99 emptyStore).1.isError = false :=
  ⟨rfl, rfl⟩

/-- C2 (amended): if the primary SkillGapRecord insert fails, nothing is
committed — no record, no skill-counter and no trend-counter update (the
store is returned unchanged) — and the error is only logged, while the
caller still receives the success response. -/
theorem insert_failure_no_partial_commit (req : AnalyzeRequest)
    (analysis : Analysis) (jobRole : String) (today : Date) (now : Nat)
    (st : Store) (hr : ¬ req.resumeText = "") (hj : ¬ req.jobDescription = "") :
    analyzeHandler req (.ok analysis) jobRole false today now st =
      (.ok200 analysis, st) := by
  unfold analyzeHandler
  rw [if_neg (fun h => h.elim hr hj)]
  rfl

/-- Witness for the amended C2 theorem at a concrete valid request. -/
theorem insert_failure_no_partial_commit_witness :
    ¬ sampleRequest.resumeText = "" ∧ ¬ sampleRequest.jobDescription = "" ∧
    analyzeHandler sampleRequest (.ok sampleAnalysis) "Engineer" false
        sampleDate 99 emptyStore = (.ok200 sampleAnalysis, emptyStore) :=
  ⟨by decide, by decide,
    insert_failure_no_partial_commit sampleRequest sampleAnalysis "Engineer"
      sampleDate 99 emptyStore (by decide) (by decide)⟩

/-- C3 (counterexample): a valid submission listing the same missing skill
twice bumps that distinct skill's counter by 2, not by 1 — on an empty
store the counter is created and immediately incremented again, ending at
2 where the claim requires 1. -/
theorem duplicate_skill_counted_twice :
    counterValue (record dupSkillData sampleDate 99 emptyStore) "React" "CSE" = 2 ∧
    (2 : Nat) ≠ 1 := by
  decide

/-- C3 (amended): after `record`, the SkillGapRecord count increases by
exactly 1, and each distinct skill of `missingSkills` increases its
SkillCounter(skill, department) by the number of its occurrences — hence
by exactly 1 (creating it at 1) whenever `missingSkills` has no duplicate,
as proved here. -/
theorem record_inserts_one_and_increments_distinct_counters
    (data : StoreData) (today : Date) (now : Nat) (st : Store)
    (hnd : data.missing_skills.Nodup) :
    (record data today now st).skill_gaps.length = st.skill_gaps.length + 1 ∧
    ∀ skill ∈ data.missing_skills,
      counterValue (record data today now st) skill (orElse data.department "Unknown") =
        counterValue st skill (orElse data.department "Unknown") + 1 := by
  constructor
  · show (st.skill_gaps ++ [_]).length = st.skill_gaps.length + 1
    simp
  · intro skill hmem
    show rowValue
        (data.missing_skills.foldl
          (fun t sk => upsertSkillRow sk (orElse data.department "Unknown") now t)
          st.skill_analytics) skill (orElse data.department "Unknown") =
      rowValue st.skill_analytics skill (orElse data.department "Unknown") + 1
    exact rowValue_fold_mem _ _ _ _ _ hmem hnd

/-- Witness for the amended C3 theorem at a concrete duplicate-free
submission on the empty store. -/
theorem record_increments_witness :
    sampleData.missing_skills.Nodup ∧
    (record sampleData sampleDate 5 emptyStore).skill_gaps.length = 1 ∧
    counterValue (record sampleData sampleDate 5 emptyStore) "React"
      (orElse sampleData.department "Unknown") = 1 := by
  have h := record_inserts_one_and_increments_distinct_counters sampleData
    sampleDate 5 emptyStore (by decide)
  refine ⟨by decide, ?_, ?_⟩
  · simpa using h.1
  · have h2 := h.2 "React" (by decide)
    rw [h2]
    decide

/-- C9: with the same filter and date and no intervening writes, a second
analytics read returns the identical snapshot; the read leaves the store
untouched (every statement it issues is a SELECT). -/
theorem analytics_read_idempotent (f : Filter) (today : Date) (st : Store) :
    (analyticsHandler true f today st).2 = st ∧
    (analyticsHandler true f today ((analyticsHandler true f today st).2)).1 =
      (analyticsHandler true f today st).1 :=
  ⟨rfl, rfl⟩

/-- C10: every entry of the returned `trendingSkills` carries the constant
`trend` string "increasing"; no trend direction is computed from the data. -/
theorem trendingSkills_trend_always_increasing (f : Filter) (today : Date)
    (st : Store) :
    ∀ e ∈ (aggregate f today st).trendingSkills, e.trend = "increasing" := by
  intro e he
  have h : (aggregate f today st).trendingSkills =
      (trendingQuery st.trends today.year (max 1 (getWeekNumber today - 3))).map
        (fun t => { skill := t.skill_name, total := t.total, trend := "increasing" }) := rfl
  rw [h] at he
  obtain ⟨t, -, rfl⟩ := List.mem_map.1 he
  rfl

/-- Witness for C10 at a store whose trending list is nonempty. -/
theorem trendingSkills_trend_witness :
    ({ skill := "React", total := 3, trend := "increasing" } : TrendingSkillEntry) ∈
      (aggregate noFilter sampleDate trendFixtureStore).trendingSkills ∧
    ({ skill := "React", total := 3, trend := "increasing" } : TrendingSkillEntry).trend
      = "increasing" := by
  refine ⟨by decide, ?_⟩
  exact trendingSkills_trend_always_increasing noFilter sampleDate
    trendFixtureStore _ (by decide)

/-- C4: with a department and/or academicYear filter present, the top-level
totals (distinct-student count, average match, match distribution) are
computed over the filtered records only, while the department-, academic-
year- and company-level group-bys ignore the filter: they coincide with the
unfiltered aggregate's group-bys. -/
theorem filter_applies_to_totals_not_groupings (f : Filter) (today : Date)
    (st : Store) (_hf : f.department.isSome ∨ f.academicYear.isSome) :
    (aggregate f today st).stats.totalStudents =
      (dedupKeys ((st.skill_gaps.filter (matchesFilter f)).map (·.student_id))).length ∧
    (aggregate f today st).stats.averageMatch =
      avgRounded ((st.skill_gaps.filter (matchesFilter f)).map (·.match_percentage)) ∧
    (aggregate f today st).matchDistribution =
      distributionOf ((st.skill_gaps.filter (matchesFilter f)).map (·.match_percentage)) ∧
    (aggregate f today st).departmentStats = (aggregate noFilter today st).departmentStats ∧
    (aggregate f today st).academicYearStats = (aggregate noFilter today st).academicYearStats ∧
    (aggregate f today st).companyStats = (aggregate noFilter today st).companyStats :=
  ⟨rfl, rfl, rfl, rfl, rfl, rfl⟩

/-- Witness for C4: a concrete department filter, with the group-by equality
taken from the theorem. -/
theorem filter_applies_witness :
    (deptFilter.department.isSome ∨ deptFilter.academicYear.isSome) ∧
    (aggregate deptFilter sampleDate trendFixtureStore).departmentStats =
      (aggregate noFilter sampleDate trendFixtureStore).departmentStats :=
  ⟨Or.inl rfl,
    (filter_applies_to_totals_not_groupings deptFilter sampleDate
      trendFixtureStore (Or.inl rfl)).2.2.2.1⟩

/-- C5 (counterexample): the degraded snapshot `getMockAnalytics` does not
carry the documented snapshot field names — `trendingSkills`,
`academicYearStats`, `companyStats` and `skillPriorityBreakdown` are all
documented but absent from the mock (which has `trends` instead). -/
theorem mock_lacks_documented_fields :
    ("trendingSkills" ∈ documentedSnapshotKeys ∧ "trendingSkills" ∉ mockAnalyticsKeys) ∧
    ("academicYearStats" ∈ documentedSnapshotKeys ∧ "academicYearStats" ∉ mockAnalyticsKeys) ∧
    ("companyStats" ∈ documentedSnapshotKeys ∧ "companyStats" ∉ mockAnalyticsKeys) ∧
    ("skillPriorityBreakdown" ∈ documentedSnapshotKeys ∧ "skillPriorityBreakdown" ∉ mockAnalyticsKeys) ∧
    ("trends" ∈ mockAnalyticsKeys ∧ "trends" ∉ documentedSnapshotKeys) := by
  decide

/-- C5 (amended): any internal failure of the analytics read is caught and
the caller receives the zeroed mock snapshot — zero counts, zero
averageMatch, empty lists, all-zero matchDistribution — and never the
error; but the mock carries only the keys of `mockAnalyticsKeys`, not the
documented snapshot field names. -/
theorem analytics_failure_returns_zeroed_mock (f : Filter) (today : Date)
    (st : Store) :
    analyticsHandler false f today st = (.degraded getMockAnalytics, st) ∧
    getMockAnalytics.stats.totalStudents = 0 ∧
    getMockAnalytics.stats.uniqueSkills = 0 ∧
    getMockAnalytics.stats.averageMatch = 0 ∧
    getMockAnalytics.stats.totalDepartments = 0 ∧
    getMockAnalytics.alerts = [] ∧
    getMockAnalytics.topMissingSkills = [] ∧
    getMockAnalytics.departmentStats = [] ∧
    getMockAnalytics.matchDistribution = ⟨0, 0, 0, 0⟩ ∧
    getMockAnalytics.trends = [] ∧
    getMockAnalytics.recentActivity = [] :=
  ⟨rfl, rfl, rfl, rfl, rfl, rfl, rfl, rfl, rfl, rfl, rfl⟩

/-- C6: the readiness-concern rule is guarded against a zero-total
distribution (no alert, no failure) and otherwise fires exactly when
(low + veryLow)/total exceeds 40%, with the rounded percentage in the
description. -/
theorem readiness_alert_rule (top : List TopSkillRow)
    (trending : List TrendingRow) (d : Distribution) :
    (generateEnhancedAlerts top trending d =
      rule1Alerts top ++ rule2Alerts trending ++ rule3Alerts d) ∧
    (d.high + d.medium + d.low + d.veryLow = 0 → rule3Alerts d = []) ∧
    (0 < d.high + d.medium + d.low + d.veryLow →
      (rule3Alerts d = [readinessAlert d] ↔
        40 * (d.high + d.medium + d.low + d.veryLow) < 100 * (d.low + d.veryLow))) ∧
    (readinessAlert d).description =
      toString (jsRound (lowMatchPercentage d)) ++
        "% of students have match scores below 60%. Review curriculum alignment." := by
  refine ⟨rfl, ?_, ?_, rfl⟩
  · intro h0
    have hl : d.low = 0 := by omega
    have hv : d.veryLow = 0 := by omega
    have hz : lowMatchPercentage d = 0 := by
      simp [lowMatchPercentage, hl, hv]
    simp [rule3Alerts, hz]
  · intro hpos
    have hT : (0 : ℚ) < ((d.high + d.medium + d.low + d.veryLow : Nat) : ℚ) := by
      exact_mod_cast hpos
    have key : (40 < lowMatchPercentage d) ↔
        40 * (d.high + d.medium + d.low + d.veryLow) < 100 * (d.low + d.veryLow) := by
      unfold lowMatchPercentage
      rw [div_mul_eq_mul_div, lt_div_iff₀ hT]
      rw [show ((40 * (d.high + d.medium + d.low + d.veryLow) < 100 * (d.low + d.veryLow)) ↔
          ((40 * (d.high + d.medium + d.low + d.veryLow) : Nat) : ℚ) <
            ((100 * (d.low + d.veryLow) : Nat) : ℚ)) from (Nat.cast_lt).symm]
      push_cast
      constructor <;> intro h <;> linarith
    by_cases hc : 40 < lowMatchPercentage d
    · simp [rule3Alerts, hc, key.1 hc]
    · have hne : ¬ (40 * (d.high + d.medium + d.low + d.veryLow) <
          100 * (d.low + d.veryLow)) := fun h => hc (key.2 h)
      simp [rule3Alerts, hc, hne]

/-- Witness for C6: a distribution with positive total on the firing side
of the threshold, and the zero distribution on the guarded side. -/
theorem readiness_alert_rule_witness :
    (0 < 0 + 0 + 3 + 3 ∧ rule3Alerts ⟨0, 0, 3, 3⟩ = [readinessAlert ⟨0, 0, 3, 3⟩]) ∧
    ((0 : Nat) + 0 + 0 + 0 = 0 ∧ rule3Alerts ⟨0, 0, 0, 0⟩ = []) := by
  constructor
  · refine ⟨by norm_num, ?_⟩
    exact ((readiness_alert_rule [] [] ⟨0, 0, 3, 3⟩).2.2.1 (by norm_num)).2 (by norm_num)
  · refine ⟨by norm_num, ?_⟩
    exact (readiness_alert_rule [] [] ⟨0, 0, 0, 0⟩).2.1 (by norm_num)

/-- C7 (code bug): the critical alert fires exactly above the count-5
threshold (none at 5, one at 6, with count and suggested action attached),
but its title reads the absent `skill` property of the SQL row — the JS
interpolation renders `"undefined"`, so the alert does not name the
most-missing skill. -/
theorem critical_alert_threshold_but_undefined_name :
    ((generateEnhancedAlerts [⟨"Python", 5⟩] [] ⟨1, 0, 0, 0⟩).filter
        (fun a => a.severity = "critical") = []) ∧
    ((generateEnhancedAlerts [⟨"Python", 6⟩] [] ⟨1, 0, 0, 0⟩).filter
        (fun a => a.severity = "critical") = [criticalSkillAlert ⟨"Python", 6⟩]) ∧
    (criticalSkillAlert ⟨"Python", 6⟩).count = some 6 ∧
    (criticalSkillAlert ⟨"Python", 6⟩).action = some "Schedule Workshop" ∧
    (criticalSkillAlert ⟨"Python", 6⟩).title = "High Demand: undefined" ∧
    "High Demand: undefined" ≠ "High Demand: Python" := by
  have hz : ¬ (40 < lowMatchPercentage ⟨1, 0, 0, 0⟩) := by
    norm_num [lowMatchPercentage]
  have h3 : rule3Alerts ⟨1, 0, 0, 0⟩ = [] := by
    simp [rule3Alerts, hz]
  refine ⟨?_, ?_, rfl, rfl, rfl, by decide⟩ <;>
    simp only [generateEnhancedAlerts, h3] <;> decide

/-- C8: each filtered record's score lands in exactly one of the four
distribution bands, the boundaries fall as documented (80 high, 79 and 60
medium, 59 and 40 low, 39 veryLow), and the four band counts of the
aggregate's matchDistribution sum to the number of filtered records. -/
theorem match_distribution_bands (f : Filter) (today : Date) (st : Store) :
    ((aggregate f today st).matchDistribution.high +
     (aggregate f today st).matchDistribution.medium +
     (aggregate f today st).matchDistribution.low +
     (aggregate f today st).matchDistribution.veryLow =
       (st.skill_gaps.filter (matchesFilter f)).length) ∧
    (∀ q : ℚ,
      (inHigh q = true ∧ inMedium q = false ∧ inLow q = false ∧ inVeryLow q = false) ∨
      (inHigh q = false ∧ inMedium q = true ∧ inLow q = false ∧ inVeryLow q = false) ∨
      (inHigh q = false ∧ inMedium q = false ∧ inLow q = true ∧ inVeryLow q = false) ∨
      (inHigh q = false ∧ inMedium q = false ∧ inLow q = false ∧ inVeryLow q = true)) ∧
    (inHigh 80 = true ∧ inMedium 79 = true ∧ inMedium 60 = true ∧
     inLow 59 = true ∧ inLow 40 = true ∧ inVeryLow 39 = true) := by
  refine ⟨?_, band_partition, ?_⟩
  · have hd : (aggregate f today st).matchDistribution =
        distributionOf ((st.skill_gaps.filter (matchesFilter f)).map
          (·.match_percentage)) := rfl
    rw [hd]
    simp only [distributionOf]
    rw [bands_length_sum, List.length_map]
  · refine ⟨?_, ?_, ?_, ?_, ?_, ?_⟩ <;> simp [inHigh, inMedium, inLow, inVeryLow] <;> norm_num

end SkillSync
